import Mathlib

/-!
Shallow embedding of `thingProperties.h` from the Project_AQI repository
(Arduino IoT Cloud configuration header).  The header declares four global
telemetry integers, credential constants, a single registration routine
`initProperties`, and a Wi-Fi connection handler instance.  We model the
global variables and the cloud SDK's registration table as explicit state,
and `initProperties` as a state transformer that issues the SDK calls of the
source body in order.
-/

namespace AQIProject

/-- Modelled from the spec: the secrets mechanism (`SECRET_SSID`,
`SECRET_OPTIONAL_PASS`, `SECRET_DEVICE_KEY`, supplied by an
`arduino_secrets.h` file that is not part of the repository slice).  The
header consumes these as opaque external string inputs. -/
structure Secrets where
  SECRET_SSID : String
  SECRET_OPTIONAL_PASS : String
  SECRET_DEVICE_KEY : String
deriving DecidableEq, Repr

/-- `const char DEVICE_LOGIN_NAME[] = "03c3af77-7486-4361-a0e9-9b943698ecdb";` -/
def DEVICE_LOGIN_NAME : String := "03c3af77-7486-4361-a0e9-9b943698ecdb"

/-- `const char SSID[] = SECRET_SSID;` -/
def SSID (sec : Secrets) : String := sec.SECRET_SSID

/-- `const char PASS[] = SECRET_OPTIONAL_PASS;` -/
def PASS (sec : Secrets) : String := sec.SECRET_OPTIONAL_PASS

/-- `const char DEVICE_KEY[] = SECRET_DEVICE_KEY;` -/
def DEVICE_KEY (sec : Secrets) : String := sec.SECRET_DEVICE_KEY

/-- The initializer expression of a credential declaration in the header:
either a string literal written in the file itself, or a reference to a
`SECRET_*` name supplied by the external secrets mechanism. -/
inductive CredSource
  | literal (value : String)
  | secretRef (name : String)
deriving DecidableEq, Repr

/-- Whether a credential's initializer comes from the secrets mechanism. -/
def CredSource.fromSecrets : CredSource → Bool
  | .literal _ => false
  | .secretRef _ => true

/-- Initializer of `DEVICE_LOGIN_NAME`: a string literal in the file. -/
def DEVICE_LOGIN_NAME_src : CredSource :=
  .literal "03c3af77-7486-4361-a0e9-9b943698ecdb"

/-- Initializer of `SSID`: the external `SECRET_SSID`. -/
def SSID_src : CredSource := .secretRef "SECRET_SSID"

/-- Initializer of `PASS`: the external `SECRET_OPTIONAL_PASS`. -/
def PASS_src : CredSource := .secretRef "SECRET_OPTIONAL_PASS"

/-- Initializer of `DEVICE_KEY`: the external `SECRET_DEVICE_KEY`. -/
def DEVICE_KEY_src : CredSource := .secretRef "SECRET_DEVICE_KEY"

/-- Identity of one of the four global telemetry variables
(`int aQI; int pM1; int pM10; int pM2_5;`).  `addProperty` takes the
variable by reference, so a registered binding stores this identity. -/
inductive PropVar
  | aQI
  | pM1
  | pM10
  | pM2_5
deriving DecidableEq, Repr

/-- The values of the four global telemetry integers. -/
structure Vars where
  aQI : Int
  pM1 : Int
  pM10 : Int
  pM2_5 : Int
deriving DecidableEq, Repr

/-- Global `int`s have static storage duration, hence are zero-initialized
at process start. -/
def initialVars : Vars := ⟨0, 0, 0, 0⟩

/-- Read one of the four globals. -/
def readVar (vs : Vars) : PropVar → Int
  | .aQI => vs.aQI
  | .pM1 => vs.pM1
  | .pM10 => vs.pM10
  | .pM2_5 => vs.pM2_5

/-- Assign one of the four globals. -/
def writeVar (vs : Vars) : PropVar → Int → Vars
  | .aQI, v => { vs with aQI := v }
  | .pM1, v => { vs with pM1 := v }
  | .pM10, v => { vs with pM10 := v }
  | .pM2_5, v => { vs with pM2_5 := v }

/-- The SDK's property permission mode (`READ`, `WRITE`, `READWRITE`). -/
inductive Permission
  | READ
  | WRITE
  | READWRITE
deriving DecidableEq, Repr

/-- The SDK's time-unit constant: intervals are measured in seconds and
`SECONDS = 1`, so `5 * SECONDS` is a five-second interval. -/
def SECONDS : Nat := 1

/-- One entry of the SDK's registration table: the variable (held by
reference), the access mode, the synchronization interval in seconds, and
the optional value-change callback (`NULL` becomes `none`). -/
structure PropertyBinding where
  var : PropVar
  permission : Permission
  intervalSeconds : Nat
  callback : Option Unit
deriving DecidableEq, Repr

/-- The value visible through a registered binding: since the binding holds
the variable by reference, it is the variable's current value. -/
def bindingValue (b : PropertyBinding) (vs : Vars) : Int :=
  readVar vs b.var

/-- One call into the `ArduinoCloud` SDK object, as issued by the header. -/
inductive SdkCall
  | setBoardId (boardId : String)
  | setSecretDeviceKey (key : String)
  | addProperty (var : PropVar) (permission : Permission)
      (intervalSeconds : Nat) (callback : Option Unit)
deriving DecidableEq, Repr

/-- The observable state of the `ArduinoCloud` SDK object: the configured
board id and device key, the registration table, and the ordered log of
every call received. -/
structure SdkState where
  boardId : Option String
  secretDeviceKey : Option String
  properties : List PropertyBinding
  callLog : List SdkCall
deriving DecidableEq, Repr

/-- The SDK state before any call: nothing configured, nothing registered. -/
def initialSdkState : SdkState := ⟨none, none, [], []⟩

/-- Effect of one SDK call on the SDK state. -/
def applyCall (st : SdkState) : SdkCall → SdkState
  | .setBoardId b =>
      { st with boardId := some b, callLog := st.callLog ++ [.setBoardId b] }
  | .setSecretDeviceKey k =>
      { st with secretDeviceKey := some k,
                callLog := st.callLog ++ [.setSecretDeviceKey k] }
  | .addProperty v p i c =>
      { st with properties := st.properties ++ [⟨v, p, i, c⟩],
                callLog := st.callLog ++ [.addProperty v p i c] }

/-- Apply a sequence of SDK calls in order. -/
def applyCalls (st : SdkState) (cs : List SdkCall) : SdkState :=
  cs.foldl applyCall st

/-- The call sequence issued by the body of `initProperties`, one element
per source statement, in source order. -/
def initCalls (sec : Secrets) : List SdkCall :=
  [ .setBoardId DEVICE_LOGIN_NAME
  , .setSecretDeviceKey (DEVICE_KEY sec)
  , .addProperty .aQI .READ (5 * SECONDS) none
  , .addProperty .pM1 .READ (5 * SECONDS) none
  , .addProperty .pM10 .READ (5 * SECONDS) none
  , .addProperty .pM2_5 .READ (5 * SECONDS) none ]

/-- The whole program state the header touches: the four globals and the
SDK object. -/
structure ProgramState where
  vars : Vars
  sdk : SdkState
deriving DecidableEq, Repr

/-- Program state at process start. -/
def initialProgramState : ProgramState := ⟨initialVars, initialSdkState⟩

/-- `void initProperties()`: issues the six SDK calls of the source body,
in source order, and touches nothing else. -/
def initProperties (sec : Secrets) (ps : ProgramState) : ProgramState :=
  let st1 := applyCall ps.sdk (.setBoardId DEVICE_LOGIN_NAME)
  let st2 := applyCall st1 (.setSecretDeviceKey (DEVICE_KEY sec))
  let st3 := applyCall st2 (.addProperty .aQI .READ (5 * SECONDS) none)
  let st4 := applyCall st3 (.addProperty .pM1 .READ (5 * SECONDS) none)
  let st5 := applyCall st4 (.addProperty .pM10 .READ (5 * SECONDS) none)
  let st6 := applyCall st5 (.addProperty .pM2_5 .READ (5 * SECONDS) none)
  { ps with sdk := st6 }

/-- Failure conditions defined in this file.  The header defines none, so
the type is empty. -/
inductive SdkError
deriving DecidableEq

/-- Run one SDK call under an error-capable semantics.  No call issued by
this file can fail. -/
def execCall (st : SdkState) (c : SdkCall) : Except SdkError SdkState :=
  .ok (applyCall st c)

/-- Run a call sequence under the error-capable semantics. -/
def runCalls (st : SdkState) : List SdkCall → Except SdkError SdkState
  | [] => .ok st
  | c :: cs => do
      let st' ← execCall st c
      runCalls st' cs

/-- `initProperties` under the error-capable semantics. -/
def runInitProperties (sec : Secrets) (ps : ProgramState) :
    Except SdkError ProgramState :=
  (runCalls ps.sdk (initCalls sec)).map fun sdk' => { ps with sdk := sdk' }

/-- `WiFiConnectionHandler(SSID, PASS)`: holds the network name and the
network password/key it was constructed with. -/
structure WiFiConnectionHandler where
  ssid : String
  pass : String
deriving DecidableEq, Repr

/-- `WiFiConnectionHandler ArduinoIoTPreferredConnection(SSID, PASS);` -/
def ArduinoIoTPreferredConnection (sec : Secrets) : WiFiConnectionHandler :=
  { ssid := SSID sec, pass := PASS sec }

/-- Iterate `initProperties` a number of times. -/
def iterateInit (sec : Secrets) : Nat → ProgramState → ProgramState
  | 0, ps => ps
  | n + 1, ps => iterateInit sec n (initProperties sec ps)

/-- Number of `addProperty` calls in a call log. -/
def countAddProperty (cs : List SdkCall) : Nat :=
  (cs.filter fun c =>
    match c with
    | .addProperty _ _ _ _ => true
    | _ => false).length

/-- The four bindings registered by `initProperties`, in registration
order. -/
def registeredBindings : List PropertyBinding :=
  [ ⟨.aQI, .READ, 5 * SECONDS, none⟩
  , ⟨.pM1, .READ, 5 * SECONDS, none⟩
  , ⟨.pM10, .READ, 5 * SECONDS, none⟩
  , ⟨.pM2_5, .READ, 5 * SECONDS, none⟩ ]

theorem initProperties_eq_applyCalls (sec : Secrets) (ps : ProgramState) :
    initProperties sec ps = { ps with sdk := applyCalls ps.sdk (initCalls sec) } := by
  rfl

theorem initProperties_sdk_spec (sec : Secrets) (ps : ProgramState) :
    initProperties sec ps =
      ⟨ps.vars,
        ⟨some DEVICE_LOGIN_NAME, some (DEVICE_KEY sec),
          ps.sdk.properties ++ registeredBindings,
          ps.sdk.callLog ++ initCalls sec⟩⟩ := by
  simp [initProperties, applyCall, registeredBindings, initCalls]

theorem initProperties_counts (sec : Secrets) (ps : ProgramState) :
    (initProperties sec ps).sdk.properties.length = ps.sdk.properties.length + 4 ∧
    countAddProperty (initProperties sec ps).sdk.callLog =
      countAddProperty ps.sdk.callLog + 4 := by
  rw [initProperties_sdk_spec]
  constructor
  · simp [registeredBindings]
  · simp [countAddProperty, initCalls, List.filter_append]

theorem iterateInit_counts (sec : Secrets) (n : Nat) :
    ∀ ps : ProgramState,
      (iterateInit sec n ps).sdk.properties.length =
        ps.sdk.properties.length + 4 * n ∧
      countAddProperty (iterateInit sec n ps).sdk.callLog =
        countAddProperty ps.sdk.callLog + 4 * n := by
  induction n with
  | zero => intro ps; simp [iterateInit]
  | succ n ih =>
      intro ps
      have hc := initProperties_counts sec ps
      have hi := ih (initProperties sec ps)
      simp only [iterateInit] at *
      omega

/-- C1: after a single invocation of `initProperties` from the fresh program
state, exactly the four properties aQI, pM1, pM10, pM2_5 are registered with
the cloud session, each with READ access, a five-second synchronization
interval, and no value-change callback. -/
theorem initProperties_registers_exactly_four (sec : Secrets) :
    (initProperties sec initialProgramState).sdk.properties = registeredBindings ∧
    (initProperties sec initialProgramState).sdk.properties.length = 4 ∧
    ((initProperties sec initialProgramState).sdk.properties.all fun b =>
      b.permission == Permission.READ && b.intervalSeconds == 5 &&
        b.callback == none) = true := by
  rw [initProperties_sdk_spec]
  refine ⟨by simp [initialProgramState, initialSdkState], ?_, ?_⟩ <;>
    simp [initialProgramState, initialSdkState, registeredBindings, SECONDS]

/-- C2: the credential values handed to the connection handler and the
cloud SDK equal the configured secret inputs verbatim: the connection
handler holds `SSID = SECRET_SSID` and `PASS = SECRET_OPTIONAL_PASS`, and
`setSecretDeviceKey` receives `DEVICE_KEY = SECRET_DEVICE_KEY`. -/
theorem credentials_passed_verbatim (sec : Secrets) (ps : ProgramState) :
    (ArduinoIoTPreferredConnection sec).ssid = sec.SECRET_SSID ∧
    (ArduinoIoTPreferredConnection sec).pass = sec.SECRET_OPTIONAL_PASS ∧
    SSID sec = sec.SECRET_SSID ∧
    PASS sec = sec.SECRET_OPTIONAL_PASS ∧
    DEVICE_KEY sec = sec.SECRET_DEVICE_KEY ∧
    (initProperties sec ps).sdk.secretDeviceKey = some sec.SECRET_DEVICE_KEY ∧
    SdkCall.setSecretDeviceKey sec.SECRET_DEVICE_KEY ∈
      (initProperties sec ps).sdk.callLog := by
  refine ⟨rfl, rfl, rfl, rfl, rfl, ?_, ?_⟩ <;>
    simp [initProperties_sdk_spec, initCalls, DEVICE_KEY]

/-- C3 counterexample: the board identifier `DEVICE_LOGIN_NAME` is a string
literal fixed inside the file, not an input from the secrets mechanism, so
not all four credential inputs are opaque external inputs. -/
theorem deviceLoginName_is_file_literal :
    DEVICE_LOGIN_NAME_src =
      CredSource.literal "03c3af77-7486-4361-a0e9-9b943698ecdb" ∧
    CredSource.fromSecrets DEVICE_LOGIN_NAME_src = false :=
  ⟨rfl, rfl⟩

/-- C3 amended: the device secret key, the network name, and the network
password/key are supplied by the secrets mechanism not defined in this
file, while the board identifier is a string literal fixed inside the
file. -/
theorem three_credentials_from_secrets :
    CredSource.fromSecrets SSID_src = true ∧
    CredSource.fromSecrets PASS_src = true ∧
    CredSource.fromSecrets DEVICE_KEY_src = true ∧
    DEVICE_LOGIN_NAME_src = CredSource.literal DEVICE_LOGIN_NAME :=
  ⟨rfl, rfl, rfl, rfl⟩

/-- C4: each of the four telemetry variables is created at process start as
a zero-initialized integer: before any assignment, reading any of them
yields 0. -/
theorem telemetry_zero_initialized :
    initialVars = ⟨0, 0, 0, 0⟩ ∧ ∀ x : PropVar, readVar initialVars x = 0 := by
  refine ⟨rfl, fun x => ?_⟩
  cases x <;> rfl

/-- C5: the four telemetry variables are independently settable and each
retains the last-assigned value: assigning `v` to variable `x` makes a read
of `x` return `v` and leaves every other variable `y` unchanged. -/
theorem telemetry_independent_retention (vs : Vars) (x y : PropVar) (v : Int)
    (h : y ≠ x) :
    readVar (writeVar vs x v) x = v ∧
    readVar (writeVar vs x v) y = readVar vs y := by
  cases x <;> cases y <;> simp_all [readVar, writeVar]

/-- C5 witness: assigning 7 to aQI makes aQI read 7 and leaves pM1
unchanged. -/
theorem telemetry_independent_retention_witness :
    readVar (writeVar initialVars PropVar.aQI 7) PropVar.aQI = 7 ∧
    readVar (writeVar initialVars PropVar.aQI 7) PropVar.pM1 =
      readVar initialVars PropVar.pM1 :=
  telemetry_independent_retention initialVars PropVar.aQI PropVar.pM1 7
    (by decide)

/-- C6: `initProperties` leaves the telemetry variables unchanged, and its
only effect is recording the board id, the device key, and the four
property bindings in the SDK state. -/
theorem initProperties_frame (sec : Secrets) (ps : ProgramState) :
    (initProperties sec ps).vars = ps.vars ∧
    initProperties sec ps =
      ⟨ps.vars,
        ⟨some DEVICE_LOGIN_NAME, some (DEVICE_KEY sec),
          ps.sdk.properties ++ registeredBindings,
          ps.sdk.callLog ++ initCalls sec⟩⟩ :=
  ⟨by rw [initProperties_sdk_spec], initProperties_sdk_spec sec ps⟩

/-- C7: `initProperties` performs no validation, no retry, and reports no
errors: under the error-capable semantics it succeeds on every input state,
it issues no call twice, and the call sequence it emits is the same
whatever the input state. -/
theorem initProperties_no_failure (sec : Secrets) (ps : ProgramState) :
    runInitProperties sec ps = Except.ok (initProperties sec ps) ∧
    (initCalls sec).Nodup ∧
    ∀ ps' : ProgramState,
      ((initProperties sec ps).sdk.callLog).drop ps.sdk.callLog.length =
        ((initProperties sec ps').sdk.callLog).drop ps'.sdk.callLog.length := by
  refine ⟨rfl, ?_, fun ps' => ?_⟩
  · simp [initCalls]
  · simp [initProperties_sdk_spec, List.drop_left]

/-- C8: each property is registered by reference to its global variable:
the registration table binds the variable's identity, and the value visible
through the binding after an assignment is the newly assigned value. -/
theorem properties_registered_by_reference (sec : Secrets) (x : PropVar)
    (vs : Vars) (v : Int) :
    ((initProperties sec initialProgramState).sdk.properties.find?
      fun b => b.var == x) =
        some ⟨x, Permission.READ, 5 * SECONDS, none⟩ ∧
    bindingValue ⟨x, Permission.READ, 5 * SECONDS, none⟩ (writeVar vs x v) = v := by
  rw [initProperties_sdk_spec]
  constructor
  · cases x <;>
      simp [initialProgramState, initialSdkState, registeredBindings]
  · cases x <;> simp [bindingValue, readVar, writeVar]

/-- C9: `initProperties` is not idempotent: after `n` invocations from the
fresh state, the SDK has received `4 * n` `addProperty` calls and the
registration table holds `4 * n` bindings. -/
theorem initProperties_not_idempotent (sec : Secrets) (n : Nat) :
    (iterateInit sec n initialProgramState).sdk.properties.length = 4 * n ∧
    countAddProperty (iterateInit sec n initialProgramState).sdk.callLog =
      4 * n := by
  have h := iterateInit_counts sec n initialProgramState
  simpa [initialProgramState, initialSdkState, countAddProperty] using h

/-- C10: `initProperties` issues its SDK calls in a fixed deterministic
order: `setBoardId`, `setSecretDeviceKey`, then `addProperty` for aQI, pM1,
pM10, pM2_5, in exactly that sequence, appended to any prior log. -/
theorem initProperties_call_order (sec : Secrets) (ps : ProgramState) :
    (initProperties sec ps).sdk.callLog =
      ps.sdk.callLog ++
        [ SdkCall.setBoardId DEVICE_LOGIN_NAME
        , SdkCall.setSecretDeviceKey (DEVICE_KEY sec)
        , SdkCall.addProperty PropVar.aQI Permission.READ (5 * SECONDS) none
        , SdkCall.addProperty PropVar.pM1 Permission.READ (5 * SECONDS) none
        , SdkCall.addProperty PropVar.pM10 Permission.READ (5 * SECONDS) none
        , SdkCall.addProperty PropVar.pM2_5 Permission.READ (5 * SECONDS) none ] := by
  simp [initProperties_sdk_spec, initCalls]

end AQIProject
